import Mathlib

/-!
Verification of the mach-based WASM linear-memory allocator
(`client/executor/wasmtime/src/runtime/mach_memory.rs`), the macOS
resident-size probe (`client/executor/src/integration_tests/sys/macos.rs`)
and the counted storage map (`frame/support/src/storage/counted_map.rs`),
as a shallow embedding in Lean 4.

Machine integers are modelled as `Nat` with explicit bounds: `u32`
values live below `U32_MOD`, `u64` values below `U64_MOD`; `checked_add`
is modelled by comparing against the modulus.
-/

namespace MachModel

/-- `const WASM_PAGE_SHIFT: u64 = 16` from mach_memory.rs. -/
def WASM_PAGE_SHIFT : Nat := 16

/-- Modulus for `u32` arithmetic. -/
def U32_MOD : Nat := 4294967296

/-- Modulus for `u64` arithmetic. -/
def U64_MOD : Nat := 18446744073709551616

/-- Rust `u32::checked_add` on values already known to be in `u32` range:
returns `none` exactly when the mathematical sum leaves the range. -/
def u32CheckedAdd (a b : Nat) : Option Nat :=
  if a + b < U32_MOD then some (a + b) else none

/-- Rust `u64::checked_add` on values already known to be in `u64` range. -/
def u64CheckedAdd (a b : Nat) : Option Nat :=
  if a + b < U64_MOD then some (a + b) else none

/-- The `MachMemory` struct of mach_memory.rs.  The `Mutex<u32>` around
`wasm_pages` only serialises access; its content is modelled directly. -/
structure MachMemory where
  /-- `address: mach_vm_address_t` — virtual address of the mapping (u64). -/
  address : Nat
  /-- `mapped_bytes: u64` — size of the mapping created, in bytes. -/
  mapped_bytes : Nat
  /-- `guard_bytes: u64` — size of the guard pages in bytes. -/
  guard_bytes : Nat
  /-- `wasm_pages: Mutex<u32>` — currently accessible number of wasm pages. -/
  wasm_pages : Nat
  /-- `wasm_pages_max: Option<u32>` — maximum number of wasm pages allowed. -/
  wasm_pages_max : Option Nat
  deriving Repr, DecidableEq

/-- Result of one `grow` call.  `result` is the returned `Option<u32>` when
the call returns normally; `panicked = true` records that the `assert!` on
line 136 failed and the process aborts (in which case `result` is
meaningless and the state is the state at the moment of the abort).
`protChanges` lists the `(addr, len)` ranges passed to `change_protection`
with `VM_PROT_DEFAULT` during the call. -/
structure GrowStep where
  result : Option Nat
  panicked : Bool
  state : MachMemory
  protChanges : List (Nat × Nat)
  deriving Repr, DecidableEq

/-- `LinearMemory::size` for `MachMemory`: reads `wasm_pages` under the lock. -/
def MachMemory.size (m : MachMemory) : Nat :=
  m.wasm_pages

/-- `LinearMemory::maximum` for `MachMemory`: returns `wasm_pages_max`. -/
def MachMemory.maximum (m : MachMemory) : Option Nat :=
  m.wasm_pages_max

/-- `LinearMemory::as_ptr` for `MachMemory`: returns `address`. -/
def MachMemory.as_ptr (m : MachMemory) : Nat :=
  m.address

/-- `LinearMemory::grow` for `MachMemory`, translated line by line:
```
let new_page_num = wasm_pages.checked_add(delta)?;
match self.wasm_pages_max {
    Some(max) if new_page_num > max => return None,
    _ => (),
}
let new_bytes = (new_page_num as u64) << WASM_PAGE_SHIFT;
// for now we do not support reallocating
assert!(new_bytes.checked_add(self.guard_bytes)? > self.mapped_bytes);
*wasm_pages = new_page_num;
change_protection(self.address, new_bytes, VM_PROT_DEFAULT);
Some(new_page_num)
```
Note the `assert!` succeeds when `new_bytes + guard_bytes > mapped_bytes`
and panics otherwise, exactly as written in the source. -/
def MachMemory.grow (m : MachMemory) (delta : Nat) : GrowStep :=
  match u32CheckedAdd m.wasm_pages delta with
  | none => { result := none, panicked := false, state := m, protChanges := [] }
  | some new_page_num =>
    if (match m.wasm_pages_max with
        | some max => decide (new_page_num > max)
        | none => false) then
      { result := none, panicked := false, state := m, protChanges := [] }
    else
      let new_bytes := new_page_num <<< WASM_PAGE_SHIFT
      match u64CheckedAdd new_bytes m.guard_bytes with
      | none => { result := none, panicked := false, state := m, protChanges := [] }
      | some total =>
        if total > m.mapped_bytes then
          { result := some new_page_num, panicked := false
            state := { m with wasm_pages := new_page_num }
            protChanges := [(m.address, new_bytes)] }
        else
          { result := none, panicked := true, state := m, protChanges := [] }

/-- The `MemoryType` limits that `new_memory` consumes:
`ty.limits().min()` and `ty.limits().max()` (wasm page counts, u32). -/
structure MemoryType where
  min : Nat
  max : Option Nat
  deriving Repr, DecidableEq

/-- Result of `MemoryCreator::new_memory`.  `err` is the `Err(String)`
branch; `panicked` records the failure of the
`assert!(accessible_bytes <= mapped_bytes)` on line 85 (process aborts
before any allocation of the returned box). -/
inductive NewMemoryResult where
  | err (msg : String)
  | panicked
  | ok (m : MachMemory)
  deriving Repr, DecidableEq

/-- `MemoryCreator::new_memory` for `MachAllocator`, translated from
mach_memory.rs lines 70–115.  The base address chosen by
`mach_vm_allocate` is nondeterministic, so it is a parameter; the
`KERN_SUCCESS` check on the allocation itself is not modelled (the OS
call is assumed to succeed). -/
def new_memory (ty : MemoryType) (reserved_size_in_bytes : Option Nat)
    (guard_size_in_bytes : Nat) (address : Nat) : NewMemoryResult :=
  let accessible_bytes := ty.min <<< WASM_PAGE_SHIFT
  let base := match reserved_size_in_bytes with
    | some reserved => reserved
    | none => accessible_bytes
  match u64CheckedAdd base guard_size_in_bytes with
  | none => .err "Guard size overflowed u64"
  | some mapped_bytes =>
    if accessible_bytes ≤ mapped_bytes then
      .ok { address := address, mapped_bytes := mapped_bytes
            guard_bytes := guard_size_in_bytes
            wasm_pages := ty.min, wasm_pages_max := ty.max }
    else
      .panicked

/-- The field of `vm_region_extended_info` that the resident-size probe
reads: `pages_resident: c_uint` (a u32 count of resident pages). -/
structure VmRegionExtendedInfo where
  pages_resident : Nat
  deriving Repr, DecidableEq

/-- Result of `instance_resident_bytes`: either the returned byte count or
the abort taken when `mach_vm_region` reports an error. -/
inductive ProbeResult where
  | bytes (n : Nat)
  | panicked
  deriving Repr, DecidableEq

/-- `instance_resident_bytes` from integration_tests/sys/macos.rs,
lines 33–66.  The `mach_vm_region` OS query is external, so its outcome is
a parameter: `Except.ok info` models `KERN_SUCCESS` together with the
region info written by the kernel, `Except.error code` models any other
return code, on which the source hits the abort branch.  On success the
source returns `info.pages_resident << vm_page_shift` (u32 arithmetic,
modelled mod `U32_MOD`) converted to `usize`. -/
def instance_resident_bytes (query : Except Int VmRegionExtendedInfo)
    (vm_page_shift : Nat) : ProbeResult :=
  match query with
  | .ok info => .bytes ((info.pages_resident <<< vm_page_shift) % U32_MOD)
  | .error _ => .panicked

/-- Modelled from the spec: the state backing a `CountedStorageMap` — the
underlying `StorageMap` ("a key-value map", whose implementation is not
under src/) modelled as a total function from keys to `Option` values,
paired with the auxiliary `StorageValue<u32>` counter. -/
structure CountedMap (K : Type) (V : Type) where
  map : K → Option V
  counter : Nat

/-- Modelled from the spec: `StorageMap::contains_key` — whether the value
(explicitly) exists in the map. -/
def CountedMap.contains_key (s : CountedMap K V) (k : K) : Bool :=
  (s.map k).isSome

/-- Modelled from the spec: `StorageMap::insert` — store `v` under `k` in
the underlying map, leaving the counter alone. -/
def CountedMap.map_insert [DecidableEq K] (s : CountedMap K V) (k : K)
    (v : V) : CountedMap K V :=
  { s with map := fun x => if x = k then some v else s.map x }

/-- `value.saturating_inc()` on the `u32` counter:
`u32::saturating_add(1)`. -/
def saturating_inc (c : Nat) : Nat :=
  min (c + 1) (U32_MOD - 1)

/-- `CountedStorageMap::insert` from counted_map.rs lines 114–119:
```
if !<Self as Helper>::Map::contains_key(key.clone()) {
    <Self as Helper>::Counter::mutate(|value| value.saturating_inc());
}
<Self as Helper>::Map::insert(key, val)
``` -/
def CountedMap.insert [DecidableEq K] (s : CountedMap K V) (k : K)
    (v : V) : CountedMap K V :=
  let s1 := if s.contains_key k then s
            else { s with counter := saturating_inc s.counter }
  s1.map_insert k v

/-! ## Helper lemmas about `grow` -/

/-- Any `grow` call either leaves the state unchanged (denial, overflow, or
the assert abort) or raises `wasm_pages` to `wasm_pages + delta`, touching
no other field. -/
theorem grow_state_cases (m : MachMemory) (d : Nat) :
    (m.grow d).state = m ∨
    (m.grow d).state = { m with wasm_pages := m.wasm_pages + d } := by
  unfold MachMemory.grow
  split
  · left; rfl
  case h_2 n heq =>
    unfold u32CheckedAdd at heq
    split at heq
    · injection heq with heq
      subst heq
      split
      · left; rfl
      · dsimp only
        split
        · left; rfl
        · split
          · right; rfl
          · left; rfl
    · exact absurd heq (by simp)

/-- One `grow` call never decreases `wasm_pages`. -/
theorem grow_wasm_pages_le (m : MachMemory) (d : Nat) :
    m.wasm_pages ≤ ((m.grow d).state).wasm_pages := by
  rcases grow_state_cases m d with h | h
  · rw [h]
  · rw [h]
    exact Nat.le_add_right _ _

/-- One `grow` call never changes `address`. -/
theorem grow_address_eq (m : MachMemory) (d : Nat) :
    ((m.grow d).state).address = m.address := by
  rcases grow_state_cases m d with h | h <;> rw [h]

/-- Run a sequence of `grow` calls, threading the field state (each call's
return value is discarded; panicking calls leave the state at the abort
point). -/
def growSeq (m : MachMemory) (ds : List Nat) : MachMemory :=
  ds.foldl (fun s d => (s.grow d).state) m

/-- `wasm_pages` never decreases across a sequence of `grow` calls. -/
theorem size_le_growSeq (ds : List Nat) (m : MachMemory) :
    m.size ≤ (growSeq m ds).size := by
  induction ds generalizing m with
  | nil => exact le_refl _
  | cons d ds ih =>
    exact le_trans (grow_wasm_pages_le m d) (ih ((m.grow d).state))

/-- A sequence of `grow` calls splits at any point. -/
theorem growSeq_append (m : MachMemory) (ds₁ ds₂ : List Nat) :
    growSeq m (ds₁ ++ ds₂) = growSeq (growSeq m ds₁) ds₂ :=
  List.foldl_append _ _ _ _

/-- `address` is unchanged across a sequence of `grow` calls. -/
theorem growSeq_address (ds : List Nat) (m : MachMemory) :
    (growSeq m ds).address = m.address := by
  induction ds generalizing m with
  | nil => rfl
  | cons d ds ih => exact (ih ((m.grow d).state)).trans (grow_address_eq m d)

/-! ## Claim theorems -/

/-- C1: the claim states that when `(current_pages + delta) * 64KiB +
guard_bytes > mapped_bytes`, `grow(delta)` returns `None` with no state or
protection change.  The code does the opposite: the `assert!` on line 136
requires `new_bytes + guard_bytes > mapped_bytes` to PASS, so at a state
with `mapped_bytes = 2·64KiB`, `guard_bytes = 0`, `current_pages = 1`,
`grow(5)` (new accessible size `6·64KiB = 393216 > 131072`) returns
`Some 6`, commits the new page count, and asks the OS to unprotect
393216 bytes — beyond the mapping — instead of returning `None`. -/
theorem C1_grow_beyond_reservation_returns_some :
    ({address := 0, mapped_bytes := 131072, guard_bytes := 0,
      wasm_pages := 1, wasm_pages_max := none} : MachMemory).grow 5 =
    { result := some 6, panicked := false,
      state := { address := 0, mapped_bytes := 131072, guard_bytes := 0,
                 wasm_pages := 6, wasm_pages_max := none },
      protChanges := [(0, 393216)] } := by
  rfl

/-- C2: the claim states that with `wasm_pages_max = Some 10`,
`current_pages = 1`, and a reservation large enough
(`mapped_bytes = 20·64KiB`, `guard_bytes = 0`), `grow(1)` returns
`Some 2`.  Instead the inverted `assert!` on line 136 fails (because
`2·64KiB + 0 ≤ mapped_bytes`) and the process aborts. -/
theorem C2_grow_within_bounds_panics :
    ({address := 0, mapped_bytes := 1310720, guard_bytes := 0,
      wasm_pages := 1, wasm_pages_max := some 10} : MachMemory).grow 1 =
    { result := none, panicked := true,
      state := { address := 0, mapped_bytes := 1310720, guard_bytes := 0,
                 wasm_pages := 1, wasm_pages_max := some 10 },
      protChanges := [] } := by
  rfl

/-- C3: the claim states that `grow(0)` always returns
`Some(current_pages)` and changes nothing.  On the very first state
`new_memory` produces (minimum 1 page, no explicit reservation, zero guard)
we have `new_bytes + guard_bytes = mapped_bytes`, so the inverted `assert!`
on line 136 fails and `grow(0)` aborts the process instead of returning
`Some 1`. -/
theorem C3_grow_zero_panics :
    new_memory ⟨1, none⟩ none 0 0 =
      .ok { address := 0, mapped_bytes := 65536, guard_bytes := 0,
            wasm_pages := 1, wasm_pages_max := none } ∧
    ({address := 0, mapped_bytes := 65536, guard_bytes := 0,
      wasm_pages := 1, wasm_pages_max := none} : MachMemory).grow 0 =
    { result := none, panicked := true,
      state := { address := 0, mapped_bytes := 65536, guard_bytes := 0,
                 wasm_pages := 1, wasm_pages_max := none },
      protChanges := [] } :=
  ⟨rfl, rfl⟩

/-- C4: whenever `current_pages + delta` overflows `u32` — in particular
`grow(u32::MAX)` on any instance with nonzero current pages — `grow`
returns `None` on the `checked_add` at line 129 without wrapping,
panicking, modifying any field, or changing any protection. -/
theorem C4_grow_overflow_denied (m : MachMemory) (delta : Nat)
    (h : U32_MOD ≤ m.wasm_pages + delta) :
    (m.grow delta).result = none ∧ (m.grow delta).panicked = false ∧
    (m.grow delta).state = m ∧ (m.grow delta).protChanges = [] := by
  have hg : m.grow delta =
      { result := none, panicked := false, state := m, protChanges := [] } := by
    unfold MachMemory.grow u32CheckedAdd
    rw [if_neg (by omega)]
  rw [hg]
  exact ⟨rfl, rfl, rfl, rfl⟩

/-- Witness for C4: `grow(u32::MAX)` with one current page is denied with
no state change. -/
theorem C4_grow_overflow_denied_witness :
    U32_MOD ≤ 1 + 4294967295 ∧
    ((({address := 0, mapped_bytes := 65536, guard_bytes := 0,
        wasm_pages := 1, wasm_pages_max := none} : MachMemory).grow
        4294967295).result = none ∧
     (({address := 0, mapped_bytes := 65536, guard_bytes := 0,
        wasm_pages := 1, wasm_pages_max := none} : MachMemory).grow
        4294967295).panicked = false ∧
     (({address := 0, mapped_bytes := 65536, guard_bytes := 0,
        wasm_pages := 1, wasm_pages_max := none} : MachMemory).grow
        4294967295).state =
       {address := 0, mapped_bytes := 65536, guard_bytes := 0,
        wasm_pages := 1, wasm_pages_max := none} ∧
     (({address := 0, mapped_bytes := 65536, guard_bytes := 0,
        wasm_pages := 1, wasm_pages_max := none} : MachMemory).grow
        4294967295).protChanges = []) :=
  ⟨by decide, C4_grow_overflow_denied _ 4294967295 (by decide)⟩

/-- C5: across any sequence of `grow` calls — whatever each call's deltas
and outcomes — the page count reported by `size()` is non-decreasing:
after any further suffix of calls it is at least what any earlier point of
the sequence reported. -/
theorem C5_size_monotone (m : MachMemory) (ds₁ ds₂ : List Nat) :
    (growSeq m ds₁).size ≤ (growSeq m (ds₁ ++ ds₂)).size := by
  rw [growSeq_append]
  exact size_le_growSeq ds₂ _

/-- C6: `as_ptr()` returns the same address before and after any `grow`
call (successful or not), and across any sequence of `grow` calls; no
operation reassigns the `address` field. -/
theorem C6_as_ptr_stable (m : MachMemory) (d : Nat) (ds : List Nat) :
    ((m.grow d).state).as_ptr = m.as_ptr ∧
    (growSeq m ds).as_ptr = m.as_ptr :=
  ⟨grow_address_eq m d, growSeq_address ds m⟩

/-- C7: `new_memory` takes the reservation size to be
`reserved_size_in_bytes` when present, otherwise the minimum page count
times 64KiB; `mapped_bytes` is that reservation size plus
`guard_size_in_bytes`, and when this sum overflows `u64` the function
returns `Err "Guard size overflowed u64"` instead of allocating. -/
theorem C7_new_memory_mapped_bytes (ty : MemoryType)
    (reserved : Option Nat) (guard addr : Nat) :
    (U64_MOD ≤ (reserved.getD (ty.min * 65536)) + guard →
      new_memory ty reserved guard addr = .err "Guard size overflowed u64") ∧
    ((reserved.getD (ty.min * 65536)) + guard < U64_MOD →
      ty.min * 65536 ≤ (reserved.getD (ty.min * 65536)) + guard →
      new_memory ty reserved guard addr =
        .ok { address := addr,
              mapped_bytes := (reserved.getD (ty.min * 65536)) + guard,
              guard_bytes := guard, wasm_pages := ty.min,
              wasm_pages_max := ty.max }) := by
  have hshift : ty.min <<< WASM_PAGE_SHIFT = ty.min * 65536 := by
    rw [Nat.shiftLeft_eq]; norm_num [WASM_PAGE_SHIFT]
  have hbase : (match reserved with
      | some r => r
      | none => ty.min <<< WASM_PAGE_SHIFT) = reserved.getD (ty.min * 65536) := by
    cases reserved <;> simp [hshift]
  constructor
  · intro h
    unfold new_memory u64CheckedAdd
    dsimp only
    rw [hbase, if_neg (by omega)]
  · intro h1 h2
    unfold new_memory u64CheckedAdd
    dsimp only
    rw [hbase, if_pos h1, hshift]
    dsimp only
    rw [if_pos h2]

/-- Witness for C7: a reservation of `u64::MAX` with one guard byte
overflows and yields the error string; one minimum page with no explicit
reservation and no guard maps exactly 64KiB. -/
theorem C7_new_memory_mapped_bytes_witness :
    new_memory ⟨1, none⟩ (some 18446744073709551615) 1 0 =
      .err "Guard size overflowed u64" ∧
    new_memory ⟨1, none⟩ none 0 7 =
      .ok { address := 7, mapped_bytes := 65536, guard_bytes := 0,
            wasm_pages := 1, wasm_pages_max := none } :=
  ⟨(C7_new_memory_mapped_bytes ⟨1, none⟩ (some 18446744073709551615) 1 0).1
      (by decide),
   by
     have h := (C7_new_memory_mapped_bytes ⟨1, none⟩ none 0 7).2
       (by decide) (by decide)
     simpa using h⟩

/-- C8: when the `mach_vm_region` query succeeds,
`instance_resident_bytes` returns the region's resident page count shifted
left by the platform page-shift constant (the byte count); when the query
reports any error, it aborts the process. -/
theorem C8_resident_bytes_spec (info : VmRegionExtendedInfo) (e : Int)
    (shift : Nat) (h : info.pages_resident <<< shift < U32_MOD) :
    instance_resident_bytes (.ok info) shift =
      .bytes (info.pages_resident <<< shift) ∧
    instance_resident_bytes (.error e) shift = .panicked := by
  constructor
  · unfold instance_resident_bytes
    dsimp only
    rw [Nat.mod_eq_of_lt h]
  · rfl

/-- Witness for C8: three resident pages at page shift 12 report
`3 << 12` bytes; an error return aborts. -/
theorem C8_resident_bytes_spec_witness :
    instance_resident_bytes (.ok ⟨3⟩) 12 = .bytes (3 <<< 12) ∧
    instance_resident_bytes (.error 1) 12 = .panicked :=
  C8_resident_bytes_spec ⟨3⟩ 1 12 (by decide)

/-- C9: when `reserved_size_in_bytes = Some r`, `r + guard_size_in_bytes`
does not overflow `u64`, but that sum is smaller than the minimum page
count times 64KiB, `new_memory` fails the
`assert!(accessible_bytes <= mapped_bytes)` on line 85 and panics rather
than returning an `Err` to the caller. -/
theorem C9_short_reservation_panics (ty : MemoryType) (r guard addr : Nat)
    (hno : r + guard < U64_MOD) (hlt : r + guard < ty.min * 65536) :
    new_memory ty (some r) guard addr = .panicked := by
  have hshift : ty.min <<< WASM_PAGE_SHIFT = ty.min * 65536 := by
    rw [Nat.shiftLeft_eq]; norm_num [WASM_PAGE_SHIFT]
  unfold new_memory u64CheckedAdd
  dsimp only
  rw [if_pos hno, hshift]
  dsimp only
  rw [if_neg (by omega)]

/-- Witness for C9: minimum 2 pages with an explicit 1-byte reservation
and no guard panics in `new_memory`. -/
theorem C9_short_reservation_panics_witness :
    new_memory ⟨2, none⟩ (some 1) 0 0 = .panicked :=
  C9_short_reservation_panics ⟨2, none⟩ 1 0 0 (by decide) (by decide)

/-- C10: `CountedStorageMap::insert(key, value)` bumps the counter by one
(saturating at `u32::MAX`) exactly when the key was absent, leaves it
unchanged when the key was present, and in both cases stores the value, so
the key is contained afterwards. -/
theorem C10_insert_counter (K V : Type) [DecidableEq K]
    (s : CountedMap K V) (k : K) (v : V) :
    (s.insert k v).counter =
      (if s.contains_key k then s.counter
       else min (s.counter + 1) (U32_MOD - 1)) ∧
    (s.insert k v).map k = some v ∧
    (s.insert k v).contains_key k = true := by
  unfold CountedMap.insert CountedMap.map_insert CountedMap.contains_key
    saturating_inc
  by_cases h : (s.map k).isSome <;> simp [h]

end MachModel
